import Mathlib

set_option maxRecDepth 40000

/-!
Shallow embedding of the repository's Python Lambda handlers:
`api.py` (HTTP router with Function URL events), `dialog_hook.py`
(Lex V2 dialog validation) and `fulfillment_hook.py` (Lex V2
fulfillment).  External effects of the Python runtime (the clock,
random draws, UUID generation, `json.loads`, library imports) are
passed to the embedded handlers as explicit parameters, and Python
exception control flow is modelled with `Except`.
-/

namespace PyStr

/-- Lowercase an ASCII letter, as Python `str.lower` does on ASCII input. -/
def charLower (c : Char) : Char :=
  if 'A' ≤ c ∧ c ≤ 'Z' then Char.ofNat (c.toNat + 32) else c

/-- Uppercase an ASCII letter, as Python `str.upper` does on ASCII input. -/
def charUpper (c : Char) : Char :=
  if 'a' ≤ c ∧ c ≤ 'z' then Char.ofNat (c.toNat - 32) else c

/-- Python `str.lower` (ASCII fragment, which is all the handlers compare). -/
def lower (s : String) : String := ⟨s.data.map charLower⟩

/-- The decimal digit character for `d < 10`. -/
def digitChar (d : Nat) : Char := Char.ofNat (48 + d)

/-- Decimal digits of `n`, most significant first; the fuel bounds the
recursion depth and exceeds the digit count of every number that appears in
this development (all are below `10 ^ 64`). -/
def natChars : Nat → Nat → List Char
  | 0, _ => []
  | fuel + 1, n => if n = 0 then [] else natChars fuel (n / 10) ++ [digitChar (n % 10)]

/-- Python `str(n)` for a natural number below `10 ^ 64`. -/
def strNat (n : Nat) : List Char := if n = 0 then ['0'] else natChars 64 n

def strOfNat (n : Nat) : String := ⟨strNat n⟩

/-- Python `str(i)` for an int. -/
def strOfInt (i : Int) : String :=
  if i < 0 then "-" ++ strOfNat i.natAbs else strOfNat i.natAbs

/-- Two zero-padded decimal digits (used with `n < 100`). -/
def pad2 (n : Nat) : List Char := [digitChar (n / 10 % 10), digitChar (n % 10)]

/-- The Python format spec `.2f` applied to a money amount held in exact
cents.  Used only for the cancellation refund, whose value is the float
literal 389.97 from the mock store: CPython prints
`f"\x7b389.97:.2f\x7d"` as `389.97`, matching `formatCents 38997`.
(The book-room path's float products are rendered through `Lex.FloatFmt`
instead, because `.2f`/`str` of a float product is not an exact-cents
function in general.) -/
def formatCents (c : ℤ) : String :=
  (if c < 0 then "-" else "") ++ strOfNat (c.natAbs / 100) ++ "." ++ ⟨pad2 (c.natAbs % 100)⟩

def digitVal (c : Char) : Nat := c.toNat - 48

def digitsVal (l : List Char) : Nat := l.foldl (fun a c => a * 10 + digitVal c) 0

/-- The Python exception classes the handlers distinguish. -/
inductive PyErr
  | keyError
  | typeError
  | valueError
  | indexError
  deriving DecidableEq

/-- Model of Python `int(str)`: optional surrounding spaces, an optional
sign, then decimal digits; anything else raises `ValueError`. -/
def pyInt (s : String) : Except PyErr Int :=
  let t := ((s.data.dropWhile (· = ' ')).reverse.dropWhile (· = ' ')).reverse
  match t with
  | '-' :: rest =>
    if rest ≠ [] ∧ rest.all Char.isDigit then .ok (-(digitsVal rest : Int))
    else .error .valueError
  | '+' :: rest =>
    if rest ≠ [] ∧ rest.all Char.isDigit then .ok ((digitsVal rest : Int))
    else .error .valueError
  | rest =>
    if rest ≠ [] ∧ rest.all Char.isDigit then .ok ((digitsVal rest : Int))
    else .error .valueError

/-- Substring test (Python `in` on strings), on character lists. -/
def containsSubAux : List Char → List Char → Bool
  | [], pat => pat.isEmpty
  | c :: t, pat => pat.isPrefixOf (c :: t) || containsSubAux t pat

/-- Substring test (Python `in` on strings). -/
def containsSub (hay pat : String) : Bool := containsSubAux hay.data pat.data

/-- Python `str.isalnum` (ASCII fragment): nonempty and all alphanumeric. -/
def pyIsAlnum (s : String) : Bool := !s.data.isEmpty && s.data.all Char.isAlphanum

end PyStr

namespace PyDate

/-- A calendar date, as carried by a Python `date`/`datetime` object. -/
structure Date where
  year : Nat
  month : Nat
  day : Nat
  deriving DecidableEq, Repr

/-- Gregorian leap-year rule (as in Python's `datetime`). -/
def isLeap (y : Nat) : Bool := y % 4 = 0 && (y % 100 ≠ 0 || y % 400 = 0)

/-- Length of a month, as enforced by the `datetime` constructor. -/
def daysInMonth (y m : Nat) : Nat :=
  if m = 2 then (if isLeap y then 29 else 28)
  else if m = 4 ∨ m = 6 ∨ m = 9 ∨ m = 11 then 30 else 31

/-- `datetime.strptime(s, "%Y-%m-%d")` followed by the `datetime`
constructor checks: exactly four year digits, a dash, one or two month
digits with value 1..12, a dash, one or two day digits naming a valid day
of that month, end of input, and a year of at least 1.  (CPython's `%m`
and `%d` accept one- or two-digit fields; `%Y` here is exactly four
digits.) -/
def parseIsoDate (s : String) : Option Date :=
  match s.data with
  | c1 :: c2 :: c3 :: c4 :: '-' :: rest =>
    if c1.isDigit && c2.isDigit && c3.isDigit && c4.isDigit then
      let y := PyStr.digitsVal [c1, c2, c3, c4]
      let mcs := rest.takeWhile Char.isDigit
      match rest.dropWhile Char.isDigit with
      | '-' :: rest2 =>
        let dcs := rest2.takeWhile Char.isDigit
        if rest2.dropWhile Char.isDigit = [] then
          let m := PyStr.digitsVal mcs
          let d := PyStr.digitsVal dcs
          if (mcs.length = 1 ∨ mcs.length = 2) ∧ (dcs.length = 1 ∨ dcs.length = 2)
              ∧ 1 ≤ y ∧ 1 ≤ m ∧ m ≤ 12 ∧ 1 ≤ d ∧ d ≤ daysInMonth y m
          then some ⟨y, m, d⟩ else none
        else none
      | _ => none
    else none
  | _ => none

/-- `strftime("%d/%m/%Y")`: the en_GB display format used by the bots.
Day and month are zero-padded to two digits; the year is printed by
CPython/glibc `%Y` as a plain decimal with no zero padding, so a year
below 1000 renders with fewer than four digits (year 5 prints as `5`). -/
def renderDMY (d : Date) : String :=
  (⟨PyStr.pad2 d.day⟩ : String) ++ "/" ++ (⟨PyStr.pad2 d.month⟩ : String) ++ "/"
    ++ PyStr.strOfNat d.year

/-- `format_date_for_display` from `fulfillment_hook.py` and
`booking_fulfillment.py`: convert ISO (YYYY-MM-DD) to DD/MM/YYYY, and on
any parse failure the bare `except` arm returns the input unchanged. -/
def format_date_for_display (s : String) : String :=
  match parseIsoDate s with
  | some d => renderDMY d
  | none => s

/-- Cumulative days before month `m` in a non-leap year (CPython table). -/
def daysBeforeMonthTable : Nat → Nat
  | 1 => 0 | 2 => 31 | 3 => 59 | 4 => 90 | 5 => 120 | 6 => 151
  | 7 => 181 | 8 => 212 | 9 => 243 | 10 => 273 | 11 => 304 | 12 => 334
  | _ => 0

/-- `date.toordinal`: proleptic Gregorian day number (0001-01-01 is day 1). -/
def toOrdinal (d : Date) : Nat :=
  365 * (d.year - 1) + (d.year - 1) / 4 - (d.year - 1) / 100 + (d.year - 1) / 400
    + daysBeforeMonthTable d.month
    + (if 2 < d.month && isLeap d.year then 1 else 0) + d.day

/-- Python `date` ordering: lexicographic on (year, month, day). -/
def dateLt (a b : Date) : Bool :=
  a.year < b.year
    || (a.year = b.year && (a.month < b.month || (a.month = b.month && a.day < b.day)))

/-- A `datetime.now()` instant: a calendar date plus the elapsed fraction
of that day (so `0 ≤ frac < 1` for any real clock reading). -/
structure DateTime where
  date : Date
  frac : ℚ

/-- The dialog hook's `check_in_date > today + timedelta(days=365)`, where
`check_in_date` is the parsed date at midnight: `datetime` comparison,
expressed through day ordinals and the time-of-day fraction. -/
def afterMaxFuture (ci : Date) (now : DateTime) : Bool :=
  decide (toOrdinal now.date + 365 < toOrdinal ci)
    || (decide (toOrdinal ci = toOrdinal now.date + 365) && decide ((0 : ℚ) > now.frac))

end PyDate

namespace Lex

open PyStr PyDate

/-- One slot of a Lex V2 event, as the handlers consume it: a JSON `null`
slot, a slot object with no usable `value`/`interpretedValue`, or a slot
whose `value.interpretedValue` is a string. -/
inductive SlotEntry
  | null
  | noValue
  | val (s : String)
  deriving DecidableEq

/-- Association-list lookup, modelling Python `dict.get` on string keys. -/
def alookup {α : Type} : List (String × α) → String → Option α
  | [], _ => none
  | (k2, v) :: t, k => if k2 = k then some v else alookup t k

/-- Python dict assignment `d[k] = v`: replace in place or append. -/
def setAttr (l : List (String × String)) (k v : String) : List (String × String) :=
  if (alookup l k).isSome then l.map (fun p => if p.1 = k then (k, v) else p)
  else l ++ [(k, v)]

/-- The `sessionState.intent` object of a Lex event. -/
structure Intent where
  name : String
  slots : List (String × SlotEntry)
  state : Option String
  deriving DecidableEq

/-- The parts of a Lex V2 event the handlers read. -/
structure Event where
  intent : Intent
  sessionAttributes : List (String × String)
  deriving DecidableEq

/-- The response shape both hooks emit:
`sessionState.dialogAction.type`, optional `slotToElicit`, the echoed
intent (whose `state` may have been set), optional session attributes and
the list of `PlainText` message contents. -/
structure Response where
  actionType : String
  slotToElicit : Option String
  intent : Intent
  sessionAttributes : Option (List (String × String))
  messages : List String
  deriving DecidableEq

/-- The dialog hook's truthy slot read:
`slots.get(name) and slots[name].get('value')`, then `interpretedValue`. -/
def getSlot (slots : List (String × SlotEntry)) (name : String) : Option String :=
  match alookup slots name with
  | some (.val s) => some s
  | _ => none

/-- The fulfillment hook's subscripting chain
`slots[name]['value']['interpretedValue']`: a missing key raises
`KeyError`, a `null` slot raises `TypeError`, a slot without a usable
value raises `KeyError` on the inner subscript. -/
def slotFetch (slots : List (String × SlotEntry)) (name : String) : Except PyErr String :=
  match alookup slots name with
  | none => .error .keyError
  | some .null => .error .typeError
  | some .noValue => .error .keyError
  | some (.val s) => .ok s

/-- `delegate` from `dialog_hook.py`. -/
def delegate (e : Event) : Response :=
  ⟨"Delegate", none, e.intent, none, []⟩

/-- `elicit_slot` from `dialog_hook.py`. -/
def elicit_slot (e : Event) (slotToElicit message : String) : Response :=
  ⟨"ElicitSlot", some slotToElicit, e.intent, none, [message]⟩

/-- `close` from `dialog_hook.py`: sets the intent state. -/
def close (e : Event) (fulfillmentState message : String) : Response :=
  ⟨"Close", none, { e.intent with state := some fulfillmentState }, none, [message]⟩

/-- `close_fulfilled` from `fulfillment_hook.py`: session attributes are
attached only when truthy (a non-empty dict). -/
def close_fulfilled (e : Event) (message : String)
    (attrs : Option (List (String × String))) : Response :=
  ⟨"Close", none, { e.intent with state := some "Fulfilled" },
    match attrs with
    | some a => if a = [] then none else some a
    | none => none,
    [message]⟩

/-- `close_failed` from `fulfillment_hook.py`. -/
def close_failed (e : Event) (message : String) : Response :=
  ⟨"Close", none, { e.intent with state := some "Failed" }, none, [message]⟩

/-- `check_room_availability`: `random.choice([True, True, True, False])`,
with the random index draw passed in. -/
def check_room_availability (r : Nat) : Bool :=
  [true, true, true, false].getD (r % 4) true

/-- `get_available_rooms`: `random.randint(1, 10)` with the draw passed in. -/
def get_available_rooms (r : Nat) : Nat := r % 10 + 1

/-- `verify_booking_exists`: the mock store knows only bookings whose
number starts with A or B (uppercased first character; call sites
guarantee a nonempty string, hence the default). -/
def verify_booking_exists (b : String) : Bool :=
  let c := PyStr.charUpper (b.data.headD ' ')
  c = 'A' || c = 'B'

def roomTypeMsg : String :=
  "I\x27m sorry, we only have single, double, or suite rooms. Which would you prefer?"

def datePastMsg : String :=
  "The check-in date cannot be in the past. Please provide a future date."

def dateFarMsg : String :=
  "We can only accept bookings up to one year in advance. Please choose an earlier date."

def dateFormatMsg : String :=
  "I couldn\x27t understand that date. Please provide the check-in date in DD/MM/YYYY format."

def nightsMinMsg : String :=
  "You must book at least one night. How many nights would you like to stay?"

def nightsMaxMsg : String :=
  "We can only accept bookings up to 30 nights. For longer stays, please contact our reservations team."

def nightsValidMsg : String :=
  "Please provide a valid number of nights."

def availabilityMsg (roomType : String) : String :=
  "I\x27m sorry, we don\x27t have any " ++ roomType
    ++ " rooms available for those dates. Would you like to try a different room type?"

/-- The RoomType block of `handle_book_room_dialog`: `some` is an early
return from the Python function, `none` means fall through. -/
def checkRoomType (e : Event) : Option Response :=
  match getSlot e.intent.slots "RoomType" with
  | some rt =>
    if PyStr.lower rt ∈ (["single", "double", "suite"] : List String) then none
    else some (elicit_slot e "RoomType" roomTypeMsg)
  | none => none

/-- The CheckInDate block of `handle_book_room_dialog`. -/
def checkCheckInDate (e : Event) (now : DateTime) : Option Response :=
  match getSlot e.intent.slots "CheckInDate" with
  | some s =>
    match parseIsoDate s with
    | none => some (elicit_slot e "CheckInDate" dateFormatMsg)
    | some d =>
      if dateLt d now.date then some (elicit_slot e "CheckInDate" datePastMsg)
      else if afterMaxFuture d now then some (elicit_slot e "CheckInDate" dateFarMsg)
      else none
  | none => none

/-- The Nights block of `handle_book_room_dialog` (`int` failure is the
`except ValueError` arm). -/
def checkNights (e : Event) : Option Response :=
  match getSlot e.intent.slots "Nights" with
  | some s =>
    match pyInt s with
    | .error _ => some (elicit_slot e "Nights" nightsValidMsg)
    | .ok n =>
      if n < 1 then some (elicit_slot e "Nights" nightsMinMsg)
      else if n > 30 then some (elicit_slot e "Nights" nightsMaxMsg)
      else none
  | none => none

/-- `all(slots.get(s) and slots[s].get('value') for s in [...])`. -/
def allRequiredFilled (slots : List (String × SlotEntry)) : Bool :=
  (getSlot slots "RoomType").isSome && (getSlot slots "CheckInDate").isSome
    && (getSlot slots "Nights").isSome

/-- The availability block of `handle_book_room_dialog`. -/
def checkAvailabilityStep (e : Event) (availR : Nat) : Option Response :=
  if allRequiredFilled e.intent.slots then
    match getSlot e.intent.slots "RoomType" with
    | some rt =>
      if check_room_availability availR then none
      else some (elicit_slot e "RoomType" (availabilityMsg rt))
    | none => none
  else none

/-- `handle_book_room_dialog`: the blocks run in source order; the first
early return wins, otherwise delegate. -/
def handle_book_room_dialog (e : Event) (now : DateTime) (availR : Nat) : Response :=
  match checkRoomType e with
  | some r => r
  | none =>
  match checkCheckInDate e now with
  | some r => r
  | none =>
  match checkNights e with
  | some r => r
  | none =>
  match checkAvailabilityStep e availR with
  | some r => r
  | none => delegate e

def bookingNumFormatMsg : String :=
  "That doesn\x27t look like a valid booking number. Booking numbers are 6-8 alphanumeric characters. Please try again."

def bookingNotFoundMsg (b : String) : String :=
  "I couldn\x27t find a booking with number " ++ b ++ ". Please verify and try again."

/-- `handle_cancel_booking_dialog`. -/
def handle_cancel_booking_dialog (e : Event) : Response :=
  match getSlot e.intent.slots "BookingNumber" with
  | some b =>
    if ¬ (pyIsAlnum b = true ∧ 6 ≤ b.length ∧ b.length ≤ 8) then
      elicit_slot e "BookingNumber" bookingNumFormatMsg
    else if ¬ verify_booking_exists b then
      elicit_slot e "BookingNumber" (bookingNotFoundMsg b)
    else delegate e
  | none => delegate e

/-- `handle_check_availability_dialog` (the room count is a random draw). -/
def handle_check_availability_dialog (e : Event) (countR : Nat) : Response :=
  match getSlot e.intent.slots "RoomType" with
  | some rt =>
    close e "Fulfilled"
      ("We currently have " ++ strOfNat (get_available_rooms countR) ++ " " ++ rt
        ++ " rooms available.")
  | none =>
    close e "Fulfilled"
      "We have rooms available across all our room types. Would you like to book one?"

/-- `lambda_handler` of `dialog_hook.py`: route on the intent name. -/
def dialog_lambda_handler (e : Event) (now : DateTime) (availR countR : Nat) : Response :=
  if e.intent.name = "BookRoom" then handle_book_room_dialog e now availR
  else if e.intent.name = "CancelBooking" then handle_cancel_booking_dialog e
  else if e.intent.name = "CheckAvailability" then handle_check_availability_dialog e countR
  else delegate e

/-- `chr(ord('A') + uuid.uuid4().int % 26)`. -/
def letterChar (n : Nat) : Char := Char.ofNat (65 + n % 26)

/-- `generate_booking_number`: three letters from three UUID draws, then
the first five characters of `str()` of a fourth UUID draw. -/
def generate_booking_number (u : Nat → Nat) : String :=
  ⟨[letterChar (u 0), letterChar (u 1), letterChar (u 2)] ++ (strNat (u 3)).take 5⟩

/-- The version nibble that `uuid.uuid4()` always sets (RFC 4122 v4):
bits 76..79 of the 128-bit integer equal 4. -/
def IsUuid4 (n : Nat) : Prop := n / 2 ^ 76 % 16 = 4

/-- The room price table of `fulfill_book_room` in exact cents
(89.99, 129.99, 249.99), with `.get`'s 99.99 default, looked up on the
lowercased room type. -/
def room_price (rt : String) : ℤ :=
  match alookup [("single", (8999 : ℤ)), ("double", (12999 : ℤ)),
      ("suite", (24999 : ℤ))] rt with
  | some p => p
  | none => 9999

/-- The threshold 0.98 of `create_booking`, as a reduced rational literal. -/
def bookingSuccessRate : ℚ := Rat.mk' 49 50 (by norm_num) (by norm_num)

/-- `create_booking`'s simulated 98% success rate: `random.random() < 0.98`
with the uniform draw passed in. -/
def create_booking_success (q : ℚ) : Bool := q < bookingSuccessRate

def bookingErrorMsg : String :=
  "I\x27m sorry, there was an error processing your booking. Please try again or contact our support team."

def infoMissingMsg : String :=
  "I\x27m sorry, some booking information is missing. Please try again."

def unexpectedMsg : String :=
  "I\x27m sorry, an unexpected error occurred. Please try again or contact support."

/-- The runtime's float rendering of the book-room total.  The source
computes `total_price = room_prices.get(room_type.lower(), 99.99) * nights`
as a float and renders it twice: `f"...£\x7btotal_price:.2f\x7d..."` in
the message and `str(total_price)` in the session attributes.  The float
product (and hence both rendered strings) is a function of the looked-up
price in exact cents and of the int nights, but CPython's shortest-repr
`str` and `.2f` of a float product are not exact-cents functions (for
example `str(129.99 * 30)` is `3899.7000000000003`, and
`.2f` of `129.99 * 10 ^ 12` ends in `.02`), so the two renderers are
passed to the handler as explicit runtime parameters, like the clock. -/
structure FloatFmt where
  fix2 : ℤ → Int → String
  floatStr : ℤ → Int → String

/-- The confirmation message f-string of `fulfill_book_room`
(`totalStr` is the already-rendered `\x7btotal_price:.2f\x7d` field). -/
def bookMessage (roomType checkIn : String) (nights : Int) (totalStr : String)
    (bookingNum : String) : String :=
  "Excellent! Your " ++ roomType ++ " room has been successfully booked.\n\n📅 Check-in: "
    ++ format_date_for_display checkIn
    ++ "\n🌙 Duration: " ++ strOfInt nights ++ " night" ++ (if 1 < nights then "s" else "")
    ++ "\n💰 Total: £" ++ totalStr
    ++ "\n🎫 Confirmation: " ++ bookingNum
    ++ "\n\nA confirmation email has been sent. We look forward to welcoming you!"

/-- The `try` body of `fulfill_book_room` (timestamp and logging have no
observable effect; `create_booking` echoes its input and is consulted only
for `success`).  The price per night in exact cents and the int nights
are handed to both float renderings of the total. -/
def try_fulfill_book_room (e : Event) (u : Nat → Nat) (succQ : ℚ) (fmt : FloatFmt) :
    Except PyErr Response := do
  let rt ← slotFetch e.intent.slots "RoomType"
  let ci ← slotFetch e.intent.slots "CheckInDate"
  let ns ← slotFetch e.intent.slots "Nights"
  let n ← pyInt ns
  let bookingNum := generate_booking_number u
  let price := room_price (PyStr.lower rt)
  if create_booking_success succQ then
    let attrs := setAttr (setAttr e.sessionAttributes "lastBookingNumber" bookingNum)
      "lastBookingTotal" (fmt.floatStr price n)
    pure (close_fulfilled e (bookMessage rt ci n (fmt.fix2 price n) bookingNum) (some attrs))
  else
    pure (close_failed e bookingErrorMsg)

/-- `fulfill_book_room` with its `except KeyError` / `except Exception` arms. -/
def fulfill_book_room (e : Event) (u : Nat → Nat) (succQ : ℚ) (fmt : FloatFmt) : Response :=
  match try_fulfill_book_room e u succQ fmt with
  | .ok r => r
  | .error .keyError => close_failed e infoMissingMsg
  | .error _ => close_failed e unexpectedMsg

/-- The mock booking record `get_booking_details` returns. -/
structure Booking where
  booking_number : String
  room_type : String
  check_in_date : String
  nights : Int
  total_price : ℤ
  status : String

/-- `get_booking_details`: `booking_number[0]` raises `IndexError` on an
empty string; otherwise the mock store knows the booking exactly when the
uppercased first character is A or B. -/
def get_booking_details (b : String) : Except PyErr (Option Booking) :=
  match b.data with
  | [] => .error .indexError
  | c :: _ =>
    if PyStr.charUpper c = 'A' ∨ PyStr.charUpper c = 'B' then
      .ok (some ⟨b, "double", "2026-03-15", 3, 38997, "confirmed"⟩)
    else .ok none

/-- `cancel_booking` always reports success. -/
def cancel_booking_success : Bool := true

def cancelMessage (bookingNum : String) (refund : ℤ) : String :=
  "Your booking " ++ bookingNum ++ " has been successfully cancelled.\n\n💰 Refund: £"
    ++ formatCents refund
    ++ "\n⏱️ Processing time: 5-7 business days\n\nYou will receive a confirmation email shortly. We hope to see you again in the future!"

def cancelErrorMsg (bookingNum : String) : String :=
  "There was an error cancelling booking " ++ bookingNum ++ ". Please contact our support team."

def cancelMissingMsg : String :=
  "I need a booking number to process the cancellation."

def cancelUnexpectedMsg : String :=
  "An unexpected error occurred. Please contact support."

/-- The `try` body of `fulfill_cancel_booking`. -/
def try_fulfill_cancel_booking (e : Event) : Except PyErr Response := do
  let bookingNum ← slotFetch e.intent.slots "BookingNumber"
  let details ← get_booking_details bookingNum
  match details with
  | none => pure (close_failed e (bookingNotFoundMsg bookingNum))
  | some bk =>
    if cancel_booking_success then
      pure (close_fulfilled e (cancelMessage bookingNum bk.total_price) none)
    else
      pure (close_failed e (cancelErrorMsg bookingNum))

/-- `fulfill_cancel_booking` with its exception arms. -/
def fulfill_cancel_booking (e : Event) : Response :=
  match try_fulfill_cancel_booking e with
  | .ok r => r
  | .error .keyError => close_failed e cancelMissingMsg
  | .error _ => close_failed e cancelUnexpectedMsg

def unknownIntentMsg : String :=
  "I\x27m sorry, I couldn\x27t process that request."

/-- `lambda_handler` of `fulfillment_hook.py`. -/
def fulfillment_lambda_handler (e : Event) (u : Nat → Nat) (succQ : ℚ) (fmt : FloatFmt) :
    Response :=
  if e.intent.name = "BookRoom" then fulfill_book_room e u succQ fmt
  else if e.intent.name = "CancelBooking" then fulfill_cancel_booking e
  else close_failed e unknownIntentMsg

end Lex

namespace Api

open PyStr

/-- A JSON value, as produced by the handlers and by `json.loads`.
Numbers are integers: every number any handler itself writes into a body
(bucket count, HTTP status code) is an int, and loads-produced values
appear only abstractly. -/
inductive JVal where
  | jstr (s : String)
  | jnum (i : ℤ)
  | jbool (b : Bool)
  | jnull
  | jobj (fields : List (String × JVal))
  | jarr (items : List JVal)

/-- Lowercase hex digit. -/
def hexDigit (n : Nat) : Char :=
  if n < 10 then PyStr.digitChar n else Char.ofNat (87 + n)

def hex4 (n : Nat) : List Char :=
  [hexDigit (n / 4096 % 16), hexDigit (n / 256 % 16), hexDigit (n / 16 % 16), hexDigit (n % 16)]

/-- The `ensure_ascii` string escaping of `json.dumps`. -/
def escChar (c : Char) : List Char :=
  if c = '"' then ['\\', '"']
  else if c = '\\' then ['\\', '\\']
  else if c = '\n' then ['\\', 'n']
  else if c = '\t' then ['\\', 't']
  else if c = '\x0d' then ['\\', 'r']
  else if c = '\x08' then ['\\', 'b']
  else if c = '\x0c' then ['\\', 'f']
  else if c.toNat < 32 ∨ 127 ≤ c.toNat then
    if c.toNat < 65536 then '\\' :: 'u' :: hex4 c.toNat
    else
      let v := c.toNat - 65536
      ('\\' :: 'u' :: hex4 (55296 + v / 1024)) ++ ('\\' :: 'u' :: hex4 (56320 + v % 1024))
  else [c]

/-- `json.dumps` of a string. -/
def jstrDump (s : String) : String := "\"" ++ (⟨(s.data.map escChar).flatten⟩ : String) ++ "\""

/-- Two spaces of indentation per level (`indent=2`). -/
def spaces : Nat → List Char
  | 0 => []
  | n + 1 => ' ' :: ' ' :: spaces n

/-- `json.dumps` of an int. -/
def jnumDump (i : ℤ) : String := PyStr.strOfInt i

/-- `json.dumps(value, indent=2)`.  The fuel bounds the nesting depth at
1000 — the same order as CPython's recursion limit — and every value built
in this repository has depth at most 4. -/
def dumpAux : Nat → Nat → JVal → String
  | 0, _, _ => ""
  | fuel + 1, lvl, v =>
    match v with
    | .jstr s => jstrDump s
    | .jnum i => jnumDump i
    | .jbool b => if b then "true" else "false"
    | .jnull => "null"
    | .jobj [] => "\x7b\x7d"
    | .jobj fs =>
      "\x7b\n"
        ++ String.intercalate ",\n"
          (fs.map (fun kv =>
            (⟨spaces (lvl + 1)⟩ : String) ++ jstrDump kv.1 ++ ": " ++ dumpAux fuel (lvl + 1) kv.2))
        ++ "\n" ++ (⟨spaces lvl⟩ : String) ++ "\x7d"
    | .jarr [] => "[]"
    | .jarr xs =>
      "[\n"
        ++ String.intercalate ",\n"
          (xs.map (fun x => (⟨spaces (lvl + 1)⟩ : String) ++ dumpAux fuel (lvl + 1) x))
        ++ "\n" ++ (⟨spaces lvl⟩ : String) ++ "]"

def pyDumps (v : JVal) : String := dumpAux 1000 0 v

/-- The fields of a Function URL event that `handler` reads, with the
`.get` defaults already applied (absent method is "GET", absent path "/",
absent parameters and body empty). -/
structure HttpEvent where
  method : String
  rawPath : String
  queryStringParameters : List (String × String)
  body : String
  deriving DecidableEq

structure HttpResponse where
  statusCode : Nat
  headers : List (String × String)
  body : String
  deriving DecidableEq

/-- The runtime context of one invocation: the UTC timestamp string, the
ENVIRONMENT variable, which layer libraries import successfully, and
`json.loads` (returning `none` models a raised `JSONDecodeError`). -/
structure Ctx where
  nowIso : String
  environment : String
  libAvailable : String → Bool
  loads : String → Option JVal

/-- `create_response` from `api.py`. -/
def create_response (status : Nat) (body : JVal) : HttpResponse :=
  ⟨status,
    [("Content-Type", "application/json"),
      ("Access-Control-Allow-Origin", "*"),
      ("Access-Control-Allow-Methods", "GET, POST, OPTIONS"),
      ("Access-Control-Allow-Headers", "Content-Type")],
    pyDumps body⟩

def ofPairs (l : List (String × String)) : List (String × JVal) :=
  l.map (fun p => (p.1, .jstr p.2))

/-- `handle_root`. -/
def handle_root (ctx : Ctx) (qp : List (String × String)) : JVal :=
  .jobj [("message", .jstr "Welcome to Lambda Function URL API"),
    ("timestamp", .jstr ctx.nowIso),
    ("environment", .jstr ctx.environment),
    ("query_params", .jobj (ofPairs qp)),
    ("endpoints", .jobj [("GET /", .jstr "This message"),
      ("GET /health", .jstr "Health check"),
      ("POST /api/data", .jstr "Process data")])]

/-- `check_library_import`. -/
def check_library_import (ctx : Ctx) (name : String) : String :=
  if ctx.libAvailable name then "available" else "not available"

/-- `handle_health`. -/
def handle_health (ctx : Ctx) : JVal :=
  .jobj [("status", .jstr "healthy"),
    ("timestamp", .jstr ctx.nowIso),
    ("checks", .jobj [("requests_library", .jstr (check_library_import ctx "requests")),
      ("boto3_library", .jstr (check_library_import ctx "boto3")),
      ("pytz_library", .jstr (check_library_import ctx "pytz"))])]

/-- `handle_post_data`. -/
def handle_post_data (ctx : Ctx) (data : JVal) : JVal :=
  .jobj [("message", .jstr "Data received and processed"),
    ("timestamp", .jstr ctx.nowIso),
    ("received_data", data),
    ("processed", .jbool true)]

/-- The 404 body of `handler`'s unmatched-route arm. -/
def notFoundBody (path method : String) : JVal :=
  .jobj [("error", .jstr "Not found"), ("path", .jstr path), ("method", .jstr method)]

/-- `handler` from `api.py`: exact-match routing, empty POST bodies parse
as an empty dict, a `json.loads` failure is the `except JSONDecodeError`
arm (400). -/
def api_handler (e : HttpEvent) (ctx : Ctx) : HttpResponse :=
  if e.rawPath = "/" ∧ e.method = "GET" then
    create_response 200 (handle_root ctx e.queryStringParameters)
  else if e.rawPath = "/health" ∧ e.method = "GET" then
    create_response 200 (handle_health ctx)
  else if e.rawPath = "/api/data" ∧ e.method = "POST" then
    if e.body = "" then create_response 200 (handle_post_data ctx (.jobj []))
    else
      match ctx.loads e.body with
      | some d => create_response 200 (handle_post_data ctx d)
      | none => create_response 400 (.jobj [("error", .jstr "Invalid JSON in request body")])
  else create_response 404 (notFoundBody e.rawPath e.method)

/-- `json.dumps(value)` without `indent`: the default compact separators
are a comma-space between items and a colon-space after keys.  Fuel as in
`dumpAux`. -/
def dumpCompactAux : Nat → JVal → String
  | 0, _ => ""
  | fuel + 1, v =>
    match v with
    | .jstr s => jstrDump s
    | .jnum i => jnumDump i
    | .jbool b => if b then "true" else "false"
    | .jnull => "null"
    | .jobj fs =>
      "\x7b"
        ++ String.intercalate ", "
          (fs.map (fun kv => jstrDump kv.1 ++ ": " ++ dumpCompactAux fuel kv.2))
        ++ "\x7d"
    | .jarr xs =>
      "[" ++ String.intercalate ", " (xs.map (dumpCompactAux fuel)) ++ "]"

def pyDumpsCompact (v : JVal) : String := dumpCompactAux 1000 v

/-- The fields of an `app.py` event that its handler reads, with the
`.get` defaults already applied (absent action is "process", absent data
an empty dict, absent url the httpbin default). -/
structure AppEvent where
  action : String
  data : JVal
  url : String

/-- What `requests.get(url, timeout=10)` followed by `raise_for_status()`
hands back on success: the status code, whether the content-type header
starts with application/json, the parsed JSON body for that case and the
response text otherwise. -/
structure FetchResult where
  status_code : ℤ
  contentTypeStartsJson : Bool
  jsonBody : JVal
  textBody : String

/-- The runtime context of one `app.py` invocation: the UTC timestamp,
the ENVIRONMENT and LAYER_VERSION variables, the Lambda context's
function name and request id, the `boto3` bucket listing (an error is
caught and counted as zero buckets), and the outbound fetch — whose
error string covers both a raised `RequestException` (re-raised by
`fetch_data`) and a JSON decode failure, either of which reaches the
top-level `except Exception` as `str(e)`. -/
structure AppCtx where
  nowIso : String
  environment : String
  layerVersion : String
  functionName : String
  requestId : String
  s3ListBuckets : Except String (List String)
  fetch : String → Except String FetchResult

/-- `app.py` responses carry only a status code and a body. -/
structure AppResponse where
  statusCode : Nat
  body : String
  deriving DecidableEq

/-- The metadata object `handler` attaches to every successful result. -/
def app_metadata (ctx : AppCtx) : JVal :=
  .jobj [("timestamp", .jstr ctx.nowIso),
    ("environment", .jstr ctx.environment),
    ("layer_version", .jstr ctx.layerVersion),
    ("function_name", .jstr ctx.functionName),
    ("request_id", .jstr ctx.requestId)]

/-- Python dict assignment `result['metadata'] = ...` on a result dict
(none of the result dicts already contains the key, so it appends). -/
def addField (v : JVal) (k : String) (w : JVal) : JVal :=
  match v with
  | .jobj fs => .jobj (fs ++ [(k, w)])
  | other => other

/-- `process_data` from `app.py`: a failed bucket listing is caught and
counted as zero. -/
def process_data (ctx : AppCtx) (data : JVal) : JVal :=
  let bucket_count : ℤ :=
    match ctx.s3ListBuckets with
    | .ok l => l.length
    | .error _ => 0
  .jobj [("message", .jstr "Data processed successfully"),
    ("data", data),
    ("s3_buckets_accessible", .jnum bucket_count),
    ("layer_libraries", .jarr [.jstr "requests", .jstr "boto3",
      .jstr "python-dateutil", .jstr "pytz"])]

/-- `fetch_data` from `app.py`: a request failure is logged and re-raised. -/
def fetch_data (ctx : AppCtx) (url : String) : Except String JVal :=
  match ctx.fetch url with
  | .error e => .error e
  | .ok r =>
    .ok (.jobj [("message", .jstr "Data fetched successfully"),
      ("url", .jstr url),
      ("status_code", .jnum r.status_code),
      ("data", if r.contentTypeStartsJson then r.jsonBody
        else .jstr ⟨r.textBody.data.take 100⟩)])

/-- `handler` from `app.py`: dispatch on the action string, attach the
metadata, dump with `indent=2`; an escaped exception becomes the 500
response whose compact body inlines `str(e)`. -/
def app_handler (e : AppEvent) (ctx : AppCtx) : AppResponse :=
  let result : Except String JVal :=
    if e.action = "process" then .ok (process_data ctx e.data)
    else if e.action = "fetch" then fetch_data ctx e.url
    else .ok (.jobj [("message", .jstr ("Unknown action: " ++ e.action))])
  match result with
  | .ok r => ⟨200, pyDumps (addField r "metadata" (app_metadata ctx))⟩
  | .error msg =>
    ⟨500, pyDumpsCompact (.jobj [("error", .jstr msg),
      ("message", .jstr "Internal server error")])⟩

end Api

/-! ### Helper lemmas -/

namespace PyStr

theorem data_append (a b : String) : (a ++ b).data = a.data ++ b.data := rfl

theorem containsSubAux_nil (y : List Char) : containsSubAux y [] = true := by
  cases y <;> simp [containsSubAux, List.isPrefixOf]

theorem containsSubAux_append_left {x p : List Char} (y : List Char)
    (h : containsSubAux x p = true) : containsSubAux (x ++ y) p = true := by
  induction x with
  | nil =>
    simp only [containsSubAux, List.isEmpty_iff] at h
    subst h
    exact containsSubAux_nil y
  | cons c t ih =>
    simp only [containsSubAux, Bool.or_eq_true] at h
    simp only [List.cons_append, containsSubAux, Bool.or_eq_true]
    rcases h with h | h
    · left
      rw [List.isPrefixOf_iff_prefix] at h ⊢
      exact h.trans (List.prefix_append (c :: t) y)
    · right
      exact ih h

theorem containsSubAux_append_right {y p : List Char} (x : List Char)
    (h : containsSubAux y p = true) : containsSubAux (x ++ y) p = true := by
  induction x with
  | nil => simp only [List.nil_append]; exact h
  | cons c t ih =>
    simp only [List.cons_append, containsSubAux, Bool.or_eq_true]
    right
    exact ih

theorem containsSub_append_left (a b p : String) (h : containsSub a p = true) :
    containsSub (a ++ b) p = true := by
  unfold containsSub at h ⊢
  rw [data_append]
  exact containsSubAux_append_left b.data h

theorem containsSub_append_right (a b p : String) (h : containsSub b p = true) :
    containsSub (a ++ b) p = true := by
  unfold containsSub at h ⊢
  rw [data_append]
  exact containsSubAux_append_right a.data h

theorem digitChar_digit_range {k : Nat} (h : k < 10) :
    '0' ≤ digitChar k ∧ digitChar k ≤ '9' := by
  interval_cases k <;> exact ⟨by decide, by decide⟩

theorem natChars_digits {fuel : Nat} : ∀ {n : Nat} {c : Char}, c ∈ natChars fuel n →
    '0' ≤ c ∧ c ≤ '9' := by
  induction fuel with
  | zero => intro n c h; simp [natChars] at h
  | succ f ih =>
    intro n c h
    unfold natChars at h
    by_cases hn : n = 0
    · simp [hn] at h
    · rw [if_neg hn] at h
      rcases List.mem_append.mp h with h | h
      · exact ih h
      · have : c = digitChar (n % 10) := by simpa using h
        subst this
        exact digitChar_digit_range (Nat.mod_lt _ (by norm_num))

theorem natChars_length {k : Nat} : ∀ {fuel n : Nat}, 10 ^ k ≤ n → k + 1 ≤ fuel →
    k + 1 ≤ (natChars fuel n).length := by
  induction k with
  | zero =>
    intro fuel n hn hf
    obtain ⟨f, rfl⟩ : ∃ f, fuel = f + 1 := ⟨fuel - 1, by omega⟩
    unfold natChars
    rw [if_neg (by omega)]
    simp
  | succ k ih =>
    intro fuel n hn hf
    obtain ⟨f, rfl⟩ : ∃ f, fuel = f + 1 := ⟨fuel - 1, by omega⟩
    have hpow : (0 : Nat) < 10 ^ (k + 1) := pow_pos (by norm_num) _
    have hn0 : n ≠ 0 := by omega
    unfold natChars
    rw [if_neg hn0, List.length_append]
    have hdiv : 10 ^ k ≤ n / 10 := by
      rw [Nat.le_div_iff_mul_le (by norm_num)]
      calc 10 ^ k * 10 = 10 ^ (k + 1) := by ring
        _ ≤ n := hn
    have hlen := @ih f (n / 10) hdiv (by omega)
    simp only [List.length_cons, List.length_nil]
    omega

theorem charUpper_AB_iff (c : Char) :
    (charUpper c = 'A' ∨ charUpper c = 'B') ↔ (c = 'A' ∨ c = 'B' ∨ c = 'a' ∨ c = 'b') := by
  have hc : Char.ofNat c.toNat = c := Char.ofNat_toNat c
  unfold charUpper
  split
  case isTrue h =>
    obtain ⟨h1, h2⟩ := h
    have n1 : 97 ≤ c.toNat := h1
    have n2 : c.toNat ≤ 122 := h2
    rw [← hc]
    generalize c.toNat = n at n1 n2 ⊢
    interval_cases n <;> simp
  case isFalse h =>
    constructor
    · rintro (h1 | h1) <;> subst h1 <;> simp_all
    · rintro (h1 | h1 | h1 | h1) <;> subst h1
      · exact Or.inl rfl
      · exact Or.inr rfl
      · exact absurd (by decide) h
      · exact absurd (by decide) h

end PyStr

namespace Lex

theorem letterChar_range (k : Nat) : 'A' ≤ letterChar k ∧ letterChar k ≤ 'Z' := by
  have h : k % 26 < 26 := Nat.mod_lt _ (by norm_num)
  unfold letterChar
  generalize k % 26 = r at h ⊢
  interval_cases r <;> exact ⟨by decide, by decide⟩

end Lex

namespace PyStr

end PyStr

namespace PyDate

open PyStr

end PyDate

theorem containsSub_intercalate_head (sep A pat : String) (l : List String)
    (h : PyStr.containsSub A pat = true) :
    PyStr.containsSub (String.intercalate.go A sep l) pat = true := by
  induction l generalizing A with
  | nil => exact h
  | cons b bs ih =>
    show PyStr.containsSub (String.intercalate.go (A ++ sep ++ b) sep bs) pat = true
    exact ih _ (PyStr.containsSub_append_left _ _ _ (PyStr.containsSub_append_left _ _ _ h))

/-! ### Claims -/

/-- C1, counterexample: on the unmatched request `GET /nope` the handler
does return a 404, but `create_response` renders the body with
`json.dumps(body, indent=2)`, whose key separator is a colon followed by a
space, so the claimed substring `"error":"Not found"` (no space) does not
occur in the body. -/
theorem C1_counterexample :
    (Api.api_handler ⟨"GET", "/nope", [], ""⟩
      ⟨"2026-01-01T00:00:00+00:00", "unknown", fun _ => true, fun _ => none⟩).statusCode = 404
    ∧ PyStr.containsSub
      (Api.api_handler ⟨"GET", "/nope", [], ""⟩
        ⟨"2026-01-01T00:00:00+00:00", "unknown", fun _ => true, fun _ => none⟩).body
      "\"error\":\"Not found\"" = false := by
  constructor
  · decide
  · decide

/-- C1, amended: for every HTTP invocation event whose method and path pair
does not exactly match one of GET /, GET /health, POST /api/data, the API
handler returns statusCode 404 and the body contains the substring
`"error": "Not found"` (with the space `json.dumps(..., indent=2)` puts
after the colon). -/
theorem C1_claim (e : Api.HttpEvent) (ctx : Api.Ctx)
    (h1 : ¬(e.rawPath = "/" ∧ e.method = "GET"))
    (h2 : ¬(e.rawPath = "/health" ∧ e.method = "GET"))
    (h3 : ¬(e.rawPath = "/api/data" ∧ e.method = "POST")) :
    (Api.api_handler e ctx).statusCode = 404
    ∧ PyStr.containsSub (Api.api_handler e ctx).body "\"error\": \"Not found\"" = true := by
  have hroute : Api.api_handler e ctx =
      Api.create_response 404 (Api.notFoundBody e.rawPath e.method) := by
    unfold Api.api_handler
    rw [if_neg h1, if_neg h2, if_neg h3]
  constructor
  · rw [hroute]
    rfl
  · rw [hroute]
    show PyStr.containsSub
      ((("\x7b\n" ++ String.intercalate.go
          ((⟨Api.spaces 1⟩ : String) ++ Api.jstrDump "error" ++ ": " ++ Api.jstrDump "Not found")
          ",\n"
          [(⟨Api.spaces 1⟩ : String) ++ Api.jstrDump "path" ++ ": " ++ Api.jstrDump e.rawPath,
            (⟨Api.spaces 1⟩ : String) ++ Api.jstrDump "method" ++ ": " ++ Api.jstrDump e.method]
        ++ "\n" ++ (⟨Api.spaces 0⟩ : String) ++ "\x7d")))
      "\"error\": \"Not found\"" = true
    apply PyStr.containsSub_append_left
    apply PyStr.containsSub_append_left
    apply PyStr.containsSub_append_left
    apply PyStr.containsSub_append_right
    apply containsSub_intercalate_head
    decide

/-- C1, witness: the amended statement evaluated on `GET /nope`. -/
theorem C1_witness :
    (¬(("/nope" : String) = "/" ∧ ("GET" : String) = "GET"))
    ∧ ((Api.api_handler ⟨"GET", "/nope", [], ""⟩
        ⟨"2026-01-01T00:00:00+00:00", "unknown", fun _ => true, fun _ => none⟩).statusCode = 404
      ∧ PyStr.containsSub
        (Api.api_handler ⟨"GET", "/nope", [], ""⟩
          ⟨"2026-01-01T00:00:00+00:00", "unknown", fun _ => true, fun _ => none⟩).body
        "\"error\": \"Not found\"" = true) :=
  ⟨by decide,
    C1_claim ⟨"GET", "/nope", [], ""⟩
      ⟨"2026-01-01T00:00:00+00:00", "unknown", fun _ => true, fun _ => none⟩
      (by decide) (by decide) (by decide)⟩

/-- C2, counterexample: the API handler invoked twice on the identical
`GET /` input mapping produces different outputs when only the clock
differs — `handle_root` embeds the invocation timestamp in the body and no
random mock branch is involved — so the output is not a deterministic
function of the input mapping with only the availability/success-rate
branches free to vary. -/
theorem C2_counterexample :
    Api.api_handler ⟨"GET", "/", [("test", "true")], ""⟩
      ⟨"2026-01-01T00:00:00+00:00", "unknown", fun _ => true, fun _ => none⟩
    ≠ Api.api_handler ⟨"GET", "/", [("test", "true")], ""⟩
      ⟨"2026-01-01T00:00:01+00:00", "unknown", fun _ => true, fun _ => none⟩ := by
  decide

/-- C2, amended: every handler's output is a deterministic function of its
explicit invocation inputs — the event mapping, the clock reading, the
environment configuration, the Lambda context identifiers (function name,
request id), the mocked external-service results (S3 listing, HTTP fetch,
json.loads, library imports, float rendering) and the random draws — and
fixing all of these but the draws, two invocations whose random draws
agree (the availability choice and room-count draw of the dialog hook;
the booking-number UUID draws and the success draw of the fulfillment
hook) produce identical outputs. -/
theorem C2_claim :
    (∀ (e : Api.HttpEvent) (c1 c2 : Api.Ctx),
      c1.nowIso = c2.nowIso → c1.environment = c2.environment →
      (∀ l, c1.libAvailable l = c2.libAvailable l) → (∀ s, c1.loads s = c2.loads s) →
      Api.api_handler e c1 = Api.api_handler e c2)
    ∧ (∀ (e : Api.AppEvent) (c1 c2 : Api.AppCtx),
      c1.nowIso = c2.nowIso → c1.environment = c2.environment →
      c1.layerVersion = c2.layerVersion → c1.functionName = c2.functionName →
      c1.requestId = c2.requestId → c1.s3ListBuckets = c2.s3ListBuckets →
      (∀ url, c1.fetch url = c2.fetch url) →
      Api.app_handler e c1 = Api.app_handler e c2)
    ∧ (∀ (e : Lex.Event) (now : PyDate.DateTime) (a1 c1 a2 c2 : Nat),
      a1 % 4 = a2 % 4 → c1 % 10 = c2 % 10 →
      Lex.dialog_lambda_handler e now a1 c1 = Lex.dialog_lambda_handler e now a2 c2)
    ∧ (∀ (e : Lex.Event) (u1 u2 : Nat → Nat) (q1 q2 : ℚ) (fmt : Lex.FloatFmt),
      Lex.generate_booking_number u1 = Lex.generate_booking_number u2 →
      Lex.create_booking_success q1 = Lex.create_booking_success q2 →
      Lex.fulfillment_lambda_handler e u1 q1 fmt = Lex.fulfillment_lambda_handler e u2 q2 fmt) := by
  refine ⟨?_, ?_, ?_, ?_⟩
  · intro e c1 c2 h1 h2 h3 h4
    simp only [Api.api_handler, Api.handle_root, Api.handle_health, Api.handle_post_data,
      Api.check_library_import, h1, h2, h3, h4]
  · intro e c1 c2 h1 h2 h3 h4 h5 h6 h7
    simp only [Api.app_handler, Api.process_data, Api.fetch_data, Api.app_metadata,
      h1, h2, h3, h4, h5, h6, h7]
  · intro e now a1 c1 a2 c2 h1 h2
    simp only [Lex.dialog_lambda_handler, Lex.handle_book_room_dialog,
      Lex.checkAvailabilityStep, Lex.check_room_availability,
      Lex.handle_check_availability_dialog, Lex.get_available_rooms, h1, h2]
  · intro e u1 u2 q1 q2 fmt hbn hsucc
    simp only [Lex.fulfillment_lambda_handler, Lex.fulfill_book_room,
      Lex.try_fulfill_book_room, hbn, hsucc]

/-- C2, witness: the amended congruences evaluated on concrete inputs
whose external observations agree without being syntactically equal. -/
theorem C2_witness :
    Api.api_handler ⟨"GET", "/", [], ""⟩
        ⟨"2026-01-01T00:00:00+00:00", "unknown", fun _ => true, fun _ => none⟩
      = Api.api_handler ⟨"GET", "/", [], ""⟩
        ⟨"2026-01-01T00:00:00+00:00", "unknown", fun s => true || s.isEmpty, fun _ => none⟩
    ∧ Api.app_handler ⟨"process", .jobj [], "https://httpbin.org/json"⟩
        ⟨"2026-01-01T00:00:00+00:00", "unknown", "1", "test-function", "test-request-id",
          .ok ["b1"], fun _ => .error "boom"⟩
      = Api.app_handler ⟨"process", .jobj [], "https://httpbin.org/json"⟩
        ⟨"2026-01-01T00:00:00+00:00", "unknown", "1", "test-function", "test-request-id",
          .ok ["b1"], fun _ => .error ("bo" ++ "om")⟩
    ∧ Lex.dialog_lambda_handler
        ⟨⟨"BookRoom", [("RoomType", .val "double"), ("CheckInDate", .val "2026-03-15"),
          ("Nights", .val "3")], none⟩, []⟩ ⟨⟨2026, 3, 10⟩, 0⟩ 1 3
      = Lex.dialog_lambda_handler
        ⟨⟨"BookRoom", [("RoomType", .val "double"), ("CheckInDate", .val "2026-03-15"),
          ("Nights", .val "3")], none⟩, []⟩ ⟨⟨2026, 3, 10⟩, 0⟩ 5 13
    ∧ Lex.fulfillment_lambda_handler
        ⟨⟨"BookRoom", [("RoomType", .val "double"), ("CheckInDate", .val "2026-03-15"),
          ("Nights", .val "3")], none⟩, []⟩ (fun _ => 2 + 5) 0
        ⟨fun _ _ => "x", fun _ _ => "y"⟩
      = Lex.fulfillment_lambda_handler
        ⟨⟨"BookRoom", [("RoomType", .val "double"), ("CheckInDate", .val "2026-03-15"),
          ("Nights", .val "3")], none⟩, []⟩ (fun _ => 7)
        (Rat.mk' 1 2 (by norm_num) (by norm_num)) ⟨fun _ _ => "x", fun _ _ => "y"⟩ :=
  ⟨C2_claim.1 _ _ _ rfl rfl (fun l => by simp) (fun _ => rfl),
    C2_claim.2.1 _ _ _ rfl rfl rfl rfl rfl rfl (fun url => by simp),
    C2_claim.2.2.1 _ _ 1 3 5 13 (by decide) (by decide),
    C2_claim.2.2.2 _ _ _ _ _ _ (by decide) (by decide)⟩

/-- C3: every booking number produced by `generate_booking_number` from
version-4 UUID draws is exactly 3 uppercase letters A-Z followed by
exactly 5 decimal digits.  The uuid4 version nibble forces the fourth draw
to be at least `4 * 2 ^ 76 > 10 ^ 4`, so `str()` of it has at least five
digits; the letters are `chr(ord('A') + _ % 26)` and need no hypothesis. -/
theorem C3_claim (u : Nat → Nat) (h4 : Lex.IsUuid4 (u 3)) :
    (Lex.generate_booking_number u).data.length = 8
    ∧ (∀ ch ∈ (Lex.generate_booking_number u).data.take 3, 'A' ≤ ch ∧ ch ≤ 'Z')
    ∧ (∀ ch ∈ (Lex.generate_booking_number u).data.drop 3, '0' ≤ ch ∧ ch ≤ '9') := by
  have hbig : 10 ^ 4 ≤ u 3 := by
    have h1 : u 3 / 2 ^ 76 % 16 = 4 := h4
    have h2 : 4 ≤ u 3 / 2 ^ 76 := by omega
    have h3 : u 3 / 2 ^ 76 * 2 ^ 76 ≤ u 3 := Nat.div_mul_le_self _ _
    have h4' : 4 * 2 ^ 76 ≤ u 3 := le_trans (Nat.mul_le_mul_right _ h2) h3
    calc (10 : Nat) ^ 4 ≤ 4 * 2 ^ 76 := by norm_num
      _ ≤ u 3 := h4'
  have hne : u 3 ≠ 0 := by
    have : (0 : Nat) < 10 ^ 4 := by norm_num
    omega
  have hstr : PyStr.strNat (u 3) = PyStr.natChars 64 (u 3) := by
    unfold PyStr.strNat
    rw [if_neg hne]
  have hlen5 : 5 ≤ (PyStr.natChars 64 (u 3)).length := PyStr.natChars_length hbig (by norm_num)
  have hdata : (Lex.generate_booking_number u).data =
      [Lex.letterChar (u 0), Lex.letterChar (u 1), Lex.letterChar (u 2)]
        ++ (PyStr.strNat (u 3)).take 5 := rfl
  have htlen : ((PyStr.strNat (u 3)).take 5).length = 5 := by
    rw [hstr, List.length_take]
    omega
  refine ⟨?_, ?_, ?_⟩
  · rw [hdata, List.length_append, htlen]
    rfl
  · intro ch hch
    rw [hdata] at hch
    have hmem : ch ∈ [Lex.letterChar (u 0), Lex.letterChar (u 1), Lex.letterChar (u 2)] := by
      have hl : ([Lex.letterChar (u 0), Lex.letterChar (u 1), Lex.letterChar (u 2)] :
          List Char).length = 3 := rfl
      rw [List.take_append_of_le_length (by rw [hl])] at hch
      exact List.mem_of_mem_take hch
    simp only [List.mem_cons, List.not_mem_nil, or_false] at hmem
    rcases hmem with h | h | h <;> subst h <;> exact Lex.letterChar_range _
  · intro ch hch
    rw [hdata, List.drop_append_of_le_length (by rfl)] at hch
    simp only [List.drop_succ_cons, List.drop_zero] at hch
    have hch2 : ch ∈ (PyStr.strNat (u 3)).take 5 := by
      simpa using hch
    have hmem : ch ∈ PyStr.strNat (u 3) := List.mem_of_mem_take hch2
    rw [hstr] at hmem
    exact PyStr.natChars_digits hmem

/-- C3, witness: the shape facts evaluated at the smallest v4 draw. -/
theorem C3_witness :
    Lex.IsUuid4 ((fun _ : Nat => 4 * 2 ^ 76) 3)
    ∧ (Lex.generate_booking_number (fun _ => 4 * 2 ^ 76)).data.length = 8
    ∧ (∀ ch ∈ (Lex.generate_booking_number (fun _ => 4 * 2 ^ 76)).data.take 3,
        'A' ≤ ch ∧ ch ≤ 'Z')
    ∧ (∀ ch ∈ (Lex.generate_booking_number (fun _ => 4 * 2 ^ 76)).data.drop 3,
        '0' ≤ ch ∧ ch ≤ '9') :=
  ⟨by unfold Lex.IsUuid4; decide,
    (C3_claim (fun _ => 4 * 2 ^ 76) (by unfold Lex.IsUuid4; decide)).1,
    (C3_claim (fun _ => 4 * 2 ^ 76) (by unfold Lex.IsUuid4; decide)).2.1,
    (C3_claim (fun _ => 4 * 2 ^ 76) (by unfold Lex.IsUuid4; decide)).2.2⟩

/-- C5: a BookRoom dialog event whose RoomType slot is filled with a value
that lowercases outside single/double/suite makes the dialog handler
return the ElicitSlot response naming RoomType with the correction
message (the RoomType rule is the first block, so no other rule can
pre-empt it). -/
theorem C5_claim (e : Lex.Event) (now : PyDate.DateTime) (a c : Nat) (rt : String)
    (hintent : e.intent.name = "BookRoom")
    (hslot : Lex.getSlot e.intent.slots "RoomType" = some rt)
    (hbad : PyStr.lower rt ∉ (["single", "double", "suite"] : List String)) :
    Lex.dialog_lambda_handler e now a c = Lex.elicit_slot e "RoomType" Lex.roomTypeMsg := by
  have h1 : Lex.checkRoomType e = some (Lex.elicit_slot e "RoomType" Lex.roomTypeMsg) := by
    unfold Lex.checkRoomType
    simp only [hslot]
    rw [if_neg hbad]
  unfold Lex.dialog_lambda_handler
  rw [if_pos hintent]
  unfold Lex.handle_book_room_dialog
  rw [h1]

/-- C5, witness: an unknown room type is re-elicited. -/
theorem C5_witness :
    Lex.getSlot (⟨⟨"BookRoom", [("RoomType", .val "penthouse")], none⟩,
      []⟩ : Lex.Event).intent.slots "RoomType" = some "penthouse"
    ∧ Lex.dialog_lambda_handler ⟨⟨"BookRoom", [("RoomType", .val "penthouse")], none⟩, []⟩
        ⟨⟨2026, 3, 10⟩, 0⟩ 0 0
      = Lex.elicit_slot ⟨⟨"BookRoom", [("RoomType", .val "penthouse")], none⟩, []⟩
        "RoomType" Lex.roomTypeMsg :=
  ⟨by decide,
    C5_claim ⟨⟨"BookRoom", [("RoomType", .val "penthouse")], none⟩, []⟩
      ⟨⟨2026, 3, 10⟩, 0⟩ 0 0 "penthouse" (by decide) (by decide) (by decide)⟩

/-- C6: for a BookRoom dialog event whose CheckInDate slot parses as a
date D (and whose RoomType rule passes, since that block runs first): if D
is before today (Python date order) the handler re-elicits CheckInDate
with the past-date message; if D is more than 365 days after today (by
day ordinals, matching the datetime comparison against now + 365 days) it
re-elicits CheckInDate with the too-far message; and if D lies within
[today, today + 365 days] the CheckInDate rule itself rejects nothing. -/
theorem C6_claim (e : Lex.Event) (now : PyDate.DateTime) (a c : Nat) (s : String)
    (dd : PyDate.Date)
    (hintent : e.intent.name = "BookRoom")
    (hrt : Lex.checkRoomType e = none)
    (hslot : Lex.getSlot e.intent.slots "CheckInDate" = some s)
    (hparse : PyDate.parseIsoDate s = some dd) :
    (PyDate.dateLt dd now.date = true →
      Lex.dialog_lambda_handler e now a c = Lex.elicit_slot e "CheckInDate" Lex.datePastMsg)
    ∧ (PyDate.dateLt dd now.date = false →
      PyDate.toOrdinal now.date + 365 < PyDate.toOrdinal dd →
      Lex.dialog_lambda_handler e now a c = Lex.elicit_slot e "CheckInDate" Lex.dateFarMsg)
    ∧ (0 ≤ now.frac → PyDate.dateLt dd now.date = false →
      PyDate.toOrdinal dd ≤ PyDate.toOrdinal now.date + 365 →
      Lex.checkCheckInDate e now = none) := by
  refine ⟨fun hlt => ?_, fun hlt hfar => ?_, fun hfrac hlt hnear => ?_⟩
  · have h2 : Lex.checkCheckInDate e now =
        some (Lex.elicit_slot e "CheckInDate" Lex.datePastMsg) := by
      unfold Lex.checkCheckInDate
      simp only [hslot, hparse]
      rw [if_pos hlt]
    unfold Lex.dialog_lambda_handler
    rw [if_pos hintent]
    unfold Lex.handle_book_room_dialog
    rw [hrt, h2]
  · have hmax : PyDate.afterMaxFuture dd now = true := by
      unfold PyDate.afterMaxFuture
      simp [hfar]
    have h2 : Lex.checkCheckInDate e now =
        some (Lex.elicit_slot e "CheckInDate" Lex.dateFarMsg) := by
      unfold Lex.checkCheckInDate
      simp only [hslot, hparse]
      rw [if_neg (by simp [hlt]), if_pos hmax]
    unfold Lex.dialog_lambda_handler
    rw [if_pos hintent]
    unfold Lex.handle_book_room_dialog
    rw [hrt, h2]
  · have hmax : PyDate.afterMaxFuture dd now = false := by
      unfold PyDate.afterMaxFuture
      have e1 : decide (PyDate.toOrdinal now.date + 365 < PyDate.toOrdinal dd) = false := by
        simp only [decide_eq_false_iff_not, not_lt]
        exact hnear
      have e2 : decide ((0 : ℚ) > now.frac) = false := by
        simp only [gt_iff_lt, decide_eq_false_iff_not, not_lt]
        exact hfrac
      rw [e1, e2]
      simp
    unfold Lex.checkCheckInDate
    simp only [hslot, hparse]
    rw [if_neg (by simp [hlt]), if_neg (by simp [hmax])]

/-- C6, witness: a past check-in date is re-elicited (today 2026-03-20),
and 2026-03-15 within a year of 2026-03-10 passes the rule. -/
theorem C6_witness :
    Lex.dialog_lambda_handler
      ⟨⟨"BookRoom", [("RoomType", .val "double"), ("CheckInDate", .val "2026-03-15"),
        ("Nights", .val "3")], none⟩, []⟩ ⟨⟨2026, 3, 20⟩, 0⟩ 0 0
      = Lex.elicit_slot
        ⟨⟨"BookRoom", [("RoomType", .val "double"), ("CheckInDate", .val "2026-03-15"),
          ("Nights", .val "3")], none⟩, []⟩ "CheckInDate" Lex.datePastMsg
    ∧ Lex.checkCheckInDate
        ⟨⟨"BookRoom", [("RoomType", .val "double"), ("CheckInDate", .val "2026-03-15"),
          ("Nights", .val "3")], none⟩, []⟩ ⟨⟨2026, 3, 10⟩, 0⟩ = none :=
  ⟨(C6_claim ⟨⟨"BookRoom", [("RoomType", .val "double"), ("CheckInDate", .val "2026-03-15"),
        ("Nights", .val "3")], none⟩, []⟩ ⟨⟨2026, 3, 20⟩, 0⟩ 0 0 "2026-03-15" ⟨2026, 3, 15⟩
      rfl rfl rfl rfl).1 (by decide),
    (C6_claim ⟨⟨"BookRoom", [("RoomType", .val "double"), ("CheckInDate", .val "2026-03-15"),
        ("Nights", .val "3")], none⟩, []⟩ ⟨⟨2026, 3, 10⟩, 0⟩ 0 0 "2026-03-15" ⟨2026, 3, 15⟩
      rfl rfl rfl rfl).2.2 (by norm_num) (by decide) (by decide)⟩

/-- C7: when every present slot passes its field rule, the handler
consults the mock availability check exactly when all three required
slots are filled, re-eliciting RoomType with the availability message on
a failed draw and delegating otherwise; with some required slot unfilled
it delegates without consulting the check. -/
theorem C7_claim (e : Lex.Event) (now : PyDate.DateTime) (a c : Nat)
    (hintent : e.intent.name = "BookRoom")
    (h1 : Lex.checkRoomType e = none)
    (h2 : Lex.checkCheckInDate e now = none)
    (h3 : Lex.checkNights e = none) :
    (∀ rt, Lex.allRequiredFilled e.intent.slots = true →
      Lex.getSlot e.intent.slots "RoomType" = some rt →
      Lex.check_room_availability a = false →
      Lex.dialog_lambda_handler e now a c = Lex.elicit_slot e "RoomType" (Lex.availabilityMsg rt))
    ∧ (Lex.allRequiredFilled e.intent.slots = true → Lex.check_room_availability a = true →
      Lex.dialog_lambda_handler e now a c = Lex.delegate e)
    ∧ (Lex.allRequiredFilled e.intent.slots = false →
      Lex.dialog_lambda_handler e now a c = Lex.delegate e) := by
  refine ⟨fun rt hall hrt hav => ?_, fun hall hav => ?_, fun hall => ?_⟩
  · have h4 : Lex.checkAvailabilityStep e a =
        some (Lex.elicit_slot e "RoomType" (Lex.availabilityMsg rt)) := by
      unfold Lex.checkAvailabilityStep
      rw [if_pos hall]
      simp only [hrt]
      rw [if_neg (by simp [hav])]
    unfold Lex.dialog_lambda_handler
    rw [if_pos hintent]
    unfold Lex.handle_book_room_dialog
    rw [h1, h2, h3, h4]
  · have hrt : ∃ rt, Lex.getSlot e.intent.slots "RoomType" = some rt := by
      unfold Lex.allRequiredFilled at hall
      simp only [Bool.and_eq_true, Option.isSome_iff_exists] at hall
      exact hall.1.1
    obtain ⟨rt, hrt⟩ := hrt
    have h4 : Lex.checkAvailabilityStep e a = none := by
      unfold Lex.checkAvailabilityStep
      rw [if_pos hall]
      simp only [hrt]
      rw [if_pos hav]
    unfold Lex.dialog_lambda_handler
    rw [if_pos hintent]
    unfold Lex.handle_book_room_dialog
    rw [h1, h2, h3, h4]
  · have h4 : Lex.checkAvailabilityStep e a = none := by
      unfold Lex.checkAvailabilityStep
      rw [if_neg (by simp [hall])]
    unfold Lex.dialog_lambda_handler
    rw [if_pos hintent]
    unfold Lex.handle_book_room_dialog
    rw [h1, h2, h3, h4]

/-- C7, witness: all slots valid; draw index 3 fails availability and
re-elicits RoomType, draw index 0 succeeds and delegates. -/
theorem C7_witness :
    Lex.dialog_lambda_handler
      ⟨⟨"BookRoom", [("RoomType", .val "double"), ("CheckInDate", .val "2026-03-15"),
        ("Nights", .val "3")], none⟩, []⟩ ⟨⟨2026, 3, 10⟩, 0⟩ 3 0
      = Lex.elicit_slot
        ⟨⟨"BookRoom", [("RoomType", .val "double"), ("CheckInDate", .val "2026-03-15"),
          ("Nights", .val "3")], none⟩, []⟩ "RoomType" (Lex.availabilityMsg "double")
    ∧ Lex.dialog_lambda_handler
        ⟨⟨"BookRoom", [("RoomType", .val "double"), ("CheckInDate", .val "2026-03-15"),
          ("Nights", .val "3")], none⟩, []⟩ ⟨⟨2026, 3, 10⟩, 0⟩ 0 0
      = Lex.delegate
        ⟨⟨"BookRoom", [("RoomType", .val "double"), ("CheckInDate", .val "2026-03-15"),
          ("Nights", .val "3")], none⟩, []⟩ :=
  ⟨(C7_claim ⟨⟨"BookRoom", [("RoomType", .val "double"), ("CheckInDate", .val "2026-03-15"),
        ("Nights", .val "3")], none⟩, []⟩ ⟨⟨2026, 3, 10⟩, 0⟩ 3 0
      rfl (by decide) (by decide) (by decide)).1 "double" (by decide) rfl (by decide),
    (C7_claim ⟨⟨"BookRoom", [("RoomType", .val "double"), ("CheckInDate", .val "2026-03-15"),
        ("Nights", .val "3")], none⟩, []⟩ ⟨⟨2026, 3, 10⟩, 0⟩ 0 0
      rfl (by decide) (by decide) (by decide)).2.1 (by decide) (by decide)⟩

/-- C8: the mock lookup `get_booking_details` finds a booking exactly when
the booking number starts with the letter A or B (in either case, since
the source uppercases the first character before comparing), and whenever
the lookup finds a booking, `fulfill_cancel_booking` — `cancel_booking`
always succeeds — returns the Fulfilled close response with the
cancellation message. -/
theorem C8_claim :
    (∀ b : String,
      (∃ bk, Lex.get_booking_details b = .ok (some bk))
        ↔ (∃ t, b.data = 'A' :: t ∨ b.data = 'B' :: t ∨ b.data = 'a' :: t ∨ b.data = 'b' :: t))
    ∧ (∀ (e : Lex.Event) (u : Nat → Nat) (q : ℚ) (fmt : Lex.FloatFmt) (b : String)
        (bk : Lex.Booking),
      e.intent.name = "CancelBooking" →
      Lex.slotFetch e.intent.slots "BookingNumber" = .ok b →
      Lex.get_booking_details b = .ok (some bk) →
      Lex.fulfillment_lambda_handler e u q fmt =
        Lex.close_fulfilled e (Lex.cancelMessage b bk.total_price) none) := by
  constructor
  · intro b
    rcases hb : b.data with _ | ⟨c, t⟩
    · constructor
      · rintro ⟨bk, hbk⟩
        unfold Lex.get_booking_details at hbk
        rw [hb] at hbk
        replace hbk : (Except.error PyStr.PyErr.indexError :
            Except PyStr.PyErr (Option Lex.Booking)) = .ok (some bk) := hbk
        simp at hbk
      · rintro ⟨t2, ht⟩
        rcases ht with h | h | h | h <;> simp at h
    · constructor
      · rintro ⟨bk, hbk⟩
        unfold Lex.get_booking_details at hbk
        rw [hb] at hbk
        replace hbk :
            (if PyStr.charUpper c = 'A' ∨ PyStr.charUpper c = 'B' then
              (Except.ok (some ⟨b, "double", "2026-03-15", 3, 38997, "confirmed"⟩) :
                Except PyStr.PyErr (Option Lex.Booking))
            else .ok none) = .ok (some bk) := hbk
        by_cases h : PyStr.charUpper c = 'A' ∨ PyStr.charUpper c = 'B'
        · rcases (PyStr.charUpper_AB_iff c).mp h with h1 | h1 | h1 | h1 <;> subst h1
          · exact ⟨t, Or.inl rfl⟩
          · exact ⟨t, Or.inr (Or.inl rfl)⟩
          · exact ⟨t, Or.inr (Or.inr (Or.inl rfl))⟩
          · exact ⟨t, Or.inr (Or.inr (Or.inr rfl))⟩
        · rw [if_neg h] at hbk
          simp at hbk
      · rintro ⟨t2, ht⟩
        have hc : c = 'A' ∨ c = 'B' ∨ c = 'a' ∨ c = 'b' := by
          rcases ht with h | h | h | h <;> simp only [List.cons.injEq] at h <;> tauto
        unfold Lex.get_booking_details
        rw [hb]
        refine ⟨⟨b, "double", "2026-03-15", 3, 38997, "confirmed"⟩, ?_⟩
        show (if PyStr.charUpper c = 'A' ∨ PyStr.charUpper c = 'B' then
            (Except.ok (some ⟨b, "double", "2026-03-15", 3, 38997, "confirmed"⟩) :
              Except PyStr.PyErr (Option Lex.Booking))
          else .ok none) = _
        rw [if_pos ((PyStr.charUpper_AB_iff c).mpr hc)]
  · intro e u q fmt b bk hintent hslot hdet
    unfold Lex.fulfillment_lambda_handler
    rw [if_neg (by simp [hintent]), if_pos hintent]
    unfold Lex.fulfill_cancel_booking Lex.try_fulfill_cancel_booking
    simp only [hslot, hdet, bind, Except.bind]
    rfl

/-- C8, witness: booking number "AB1234" is found and cancelled with a
Fulfilled close. -/
theorem C8_witness :
    (∃ bk, Lex.get_booking_details "AB1234" = .ok (some bk))
    ∧ Lex.fulfillment_lambda_handler
        ⟨⟨"CancelBooking", [("BookingNumber", .val "AB1234")], none⟩, []⟩ (fun _ => 0) 0
        ⟨fun _ _ => "", fun _ _ => ""⟩
      = Lex.close_fulfilled
        ⟨⟨"CancelBooking", [("BookingNumber", .val "AB1234")], none⟩, []⟩
        (Lex.cancelMessage "AB1234" 38997) none :=
  ⟨(C8_claim.1 "AB1234").mpr ⟨['B', '1', '2', '3', '4'], Or.inl (by decide)⟩,
    C8_claim.2 ⟨⟨"CancelBooking", [("BookingNumber", .val "AB1234")], none⟩, []⟩
      (fun _ => 0) 0 ⟨fun _ _ => "", fun _ _ => ""⟩ "AB1234"
      ⟨"AB1234", "double", "2026-03-15", 3, 38997, "confirmed"⟩
      rfl rfl rfl⟩

/-- C9: a BookRoom fulfillment event in which a required slot key is
absent from the slot mapping (and any required slot accessed before it
carries a value, so the first failure is the KeyError) is answered with
the failed Close response carrying the information-missing text; the
embedded handler is a total function, so no exception escapes. -/
theorem C9_claim (e : Lex.Event) (u : Nat → Nat) (q : ℚ) (fmt : Lex.FloatFmt)
    (hintent : e.intent.name = "BookRoom")
    (hmiss : Lex.alookup e.intent.slots "RoomType" = none
      ∨ (∃ x, Lex.alookup e.intent.slots "RoomType" = some (.val x)
          ∧ Lex.alookup e.intent.slots "CheckInDate" = none)
      ∨ (∃ x y, Lex.alookup e.intent.slots "RoomType" = some (.val x)
          ∧ Lex.alookup e.intent.slots "CheckInDate" = some (.val y)
          ∧ Lex.alookup e.intent.slots "Nights" = none)) :
    Lex.fulfillment_lambda_handler e u q fmt = Lex.close_failed e Lex.infoMissingMsg := by
  have htry : Lex.try_fulfill_book_room e u q fmt = .error .keyError := by
    unfold Lex.try_fulfill_book_room
    rcases hmiss with h | ⟨x, hx, h⟩ | ⟨x, y, hx, hy, h⟩
    · unfold Lex.slotFetch
      simp only [h, bind, Except.bind]
    · unfold Lex.slotFetch
      simp only [hx, h, bind, Except.bind]
    · unfold Lex.slotFetch
      simp only [hx, hy, h, bind, Except.bind]
  unfold Lex.fulfillment_lambda_handler
  rw [if_pos hintent]
  unfold Lex.fulfill_book_room
  rw [htry]

/-- C9, witness: a BookRoom event without a RoomType key yields the
information-missing failure. -/
theorem C9_witness :
    Lex.alookup (⟨⟨"BookRoom", [("CheckInDate", .val "2026-03-15")], none⟩,
      []⟩ : Lex.Event).intent.slots "RoomType" = none
    ∧ Lex.fulfillment_lambda_handler
        ⟨⟨"BookRoom", [("CheckInDate", .val "2026-03-15")], none⟩, []⟩ (fun _ => 0) 0
        ⟨fun _ _ => "", fun _ _ => ""⟩
      = Lex.close_failed ⟨⟨"BookRoom", [("CheckInDate", .val "2026-03-15")], none⟩, []⟩
        Lex.infoMissingMsg :=
  ⟨by decide,
    C9_claim ⟨⟨"BookRoom", [("CheckInDate", .val "2026-03-15")], none⟩, []⟩
      (fun _ => 0) 0 ⟨fun _ _ => "", fun _ _ => ""⟩ rfl (Or.inl (by decide))⟩

